import Mathlib

/-!
# Verification of the PythonGenerateSQL value-normalization and statement-generation pipeline

Shallow embedding of the core of the repository:
  * `src/sql/sql_generator.py` — the three `SQLDialect` classes and `SQLGenerator`;
  * `src/data/data_reader.py` — `DataReader._flatten_json_object`, `DataReader.validate_data`;
  * `src/data/csv_reader.py` — `CSVReader.validate_data`;
  * `src/utils/file_manager.py` — `FileManager.validate_table_name`;
  * `src/app.py` — the table-name gate of `SQLGeneratorApp._process_csv_file`.

Python `dict`s are modelled as insertion-ordered association lists, Python
strings as Lean `String`, and a raised `KeyError` as `Option.none`.
-/

namespace PyGenSQL

/-- The single-quote character `'` (code point 39). -/
def squote : Char := Char.ofNat 39

/-- Scalar Python values that reach the SQL layer: `None`, `str`, `int`, `bool`. -/
inductive SVal where
  | vNull : SVal
  | vStr : String → SVal
  | vInt : Int → SVal
  | vBool : Bool → SVal
  deriving DecidableEq, Repr

/-- Python `str(value)` for the scalar values modelled by `SVal`. -/
def pyStr : SVal → String
  | .vNull => "None"
  | .vStr s => s
  | .vInt n => toString n
  | .vBool b => if b then "True" else "False"

/-- Python `value == ''` for an `SVal` (only a string compares equal to `''`). -/
def pyEqEmptyStr : SVal → Bool
  | .vStr s => s == ""
  | _ => false

/-- The ASCII characters removed by Python `str.strip()` with no argument:
space, tab, newline, carriage return, vertical tab, form feed. -/
def pyIsSpace (c : Char) : Bool :=
  c == ' ' || c == Char.ofNat 9 || c == Char.ofNat 10 ||
  c == Char.ofNat 13 || c == Char.ofNat 11 || c == Char.ofNat 12

/-- Python `str.strip()`: drop leading and trailing whitespace. -/
def pyStrip (s : String) : String :=
  String.mk (((s.data.dropWhile pyIsSpace).reverse.dropWhile pyIsSpace).reverse)

/-- Python `str.upper()` restricted to ASCII letters. -/
def pyUpper (s : String) : String := String.mk (s.data.map Char.toUpper)

/-- Character-by-character worker for `pyReplace1`. -/
def pyReplace1Aux (pat : Char) (rep : List Char) : List Char → List Char
  | [] => []
  | c :: cs => (if c = pat then rep else [c]) ++ pyReplace1Aux pat rep cs

/-- Python `s.replace(pat, rep)` for a one-character pattern `pat`. -/
def pyReplace1 (pat : Char) (rep : String) (s : String) : String :=
  String.mk (pyReplace1Aux pat rep.data s.data)

/-- Python `s.startswith(pre)`: `pre` is a prefix of `s`. -/
def pyStartsWith (s pre : String) : Bool := pre.data.isPrefixOf s.data

/-- The default NULL sentinels of `SQLGenerator.generate_inserts`
(`sql_generator.py` line 198), also the `null_values` default of
`config_manager.py` line 29. -/
def defaultNullValues : List String := ["", "NULL", "null", "None", "none"]

/-- The NULL test shared verbatim by the three dialects
(`sql_generator.py` lines 33–36, 69–72, 105–108):
`value is None or value == '' or str(value).strip() == '' or
 str(value).strip().upper() in null_values`. -/
def isNullRendered (value : SVal) (null_values : List String) : Bool :=
  value == .vNull || pyEqEmptyStr value || pyStrip (pyStr value) == "" ||
  null_values.contains (pyUpper (pyStrip (pyStr value)))

/-- Embedding of `SQLServerDialect.format_value` (`sql_generator.py` lines 31–41). -/
def formatValueSQLServer (value : SVal) (null_values : List String) : String :=
  if isNullRendered value null_values then "NULL"
  else "\x27" ++ pyReplace1 squote "\x27\x27" (pyStr value) ++ "\x27"

/-- Embedding of `MySQLDialect.format_value` (`sql_generator.py` lines 67–77); the
replacement string is a backslash followed by a single quote. -/
def formatValueMySQL (value : SVal) (null_values : List String) : String :=
  if isNullRendered value null_values then "NULL"
  else "\x27" ++ pyReplace1 squote "\\\x27" (pyStr value) ++ "\x27"

/-- Embedding of `PostgreSQLDialect.format_value` (`sql_generator.py` lines 103–113). -/
def formatValuePostgreSQL (value : SVal) (null_values : List String) : String :=
  if isNullRendered value null_values then "NULL"
  else "\x27" ++ pyReplace1 squote "\x27\x27" (pyStr value) ++ "\x27"

/-- The three registered dialects (`SQLGenerator.DIALECTS`). -/
inductive Dialect where
  | sqlserver | mysql | postgresql
  deriving DecidableEq, Repr

/-- Dispatch of `format_value` on the active dialect. -/
def formatValue : Dialect → SVal → List String → String
  | .sqlserver => formatValueSQLServer
  | .mysql => formatValueMySQL
  | .postgresql => formatValuePostgreSQL

/-- A Record: one row, a Python `dict` modelled as an insertion-ordered
association list from column name to value. -/
abbrev Record := List (String × SVal)

/-- Python `list(row.keys())`: the column names of a Record in insertion order. -/
def recordKeys (r : Record) : List String := r.map (·.1)

/-- Python `row[col]`: `some` value on a present key (first binding wins, as a
`dict` has unique keys), `none` models the raised `KeyError`. -/
def lookupVal (r : Record) (k : String) : Option SVal :=
  (List.find? (fun kv => kv.1 == k) r).map (·.2)

/-- Embedding of `SQLServerDialect.create_table_statement` (`sql_generator.py` lines 43–61). -/
def createTableStatementSQLServer (table_name : String) (columns : List String) : String :=
  String.intercalate "\n"
    (["-- CREATE TABLE statement for temporary table",
      "CREATE TABLE " ++ table_name ++ " ("]
     ++ columns.map (fun col => "    " ++ col ++ " NVARCHAR(MAX) NULL")
     ++ [");", "", "-- INSERT statements:", ""])

/-- Embedding of `MySQLDialect.create_table_statement` (`sql_generator.py` lines 79–97). -/
def createTableStatementMySQL (table_name : String) (columns : List String) : String :=
  String.intercalate "\n"
    (["-- CREATE TABLE statement for temporary table",
      "CREATE TABLE " ++ table_name ++ " ("]
     ++ columns.map (fun col => "    " ++ col ++ " TEXT NULL")
     ++ [");", "", "-- INSERT statements:", ""])

/-- Embedding of `PostgreSQLDialect.create_table_statement` (`sql_generator.py` lines 115–133). -/
def createTableStatementPostgreSQL (table_name : String) (columns : List String) : String :=
  String.intercalate "\n"
    (["-- CREATE TABLE statement for temporary table",
      "CREATE TABLE " ++ table_name ++ " ("]
     ++ columns.map (fun col => "    " ++ col ++ " TEXT NULL")
     ++ [");", "", "-- INSERT statements:", ""])

/-- Dispatch of `create_table_statement` on the active dialect. -/
def createTableStatement : Dialect → String → List String → String
  | .sqlserver => createTableStatementSQLServer
  | .mysql => createTableStatementMySQL
  | .postgresql => createTableStatementPostgreSQL

/-- Embedding of `SQLGenerator._generate_header` (`sql_generator.py` lines 215–231). -/
def generateHeader (table_name : String) (row_count : Nat) : List String :=
  ["-- Generated SQL INSERT statements for table: " ++ table_name,
   "-- Total rows: " ++ toString row_count,
   "-- Note: Empty values are inserted as NULL (without quotes)",
   ""]

/-- The body of one iteration of the row loop of
`SQLGenerator._generate_insert_statements` (`sql_generator.py` lines 249–256):
format every column value of the row (a missing key is a `KeyError`, `none`)
and assemble the `INSERT` statement. -/
def insertStatementFor (d : Dialect) (table_name : String) (columns : List String)
    (null_values : List String) (row : Record) : Option String := do
  let values ← columns.mapM (fun col => (lookupVal row col).map (fun v => formatValue d v null_values))
  pure ("INSERT INTO " ++ table_name ++ " (" ++ String.intercalate ", " columns ++
        ") VALUES (" ++ String.intercalate ", " values ++ ");")

/-- The row loop of `SQLGenerator._generate_insert_statements`
(`sql_generator.py` lines 247–264), carrying the 1-based `enumerate` index
`i`; after each row the progress comment is appended when `i % batch_size == 0`. -/
def generateRowsAux (d : Dialect) (batch_size : Nat) (table_name : String)
    (columns : List String) (null_values : List String) :
    Nat → List Record → Option (List String)
  | _, [] => some []
  | i, row :: rest => do
    let stmt ← insertStatementFor d table_name columns null_values row
    let tail ← generateRowsAux d batch_size table_name columns null_values (i + 1) rest
    pure (if i % batch_size == 0
          then stmt :: ("-- Processed " ++ toString i ++ " rows") :: tail
          else stmt :: tail)

/-- Embedding of `SQLGenerator._generate_insert_statements` (`sql_generator.py` lines 233–264):
`enumerate(data, 1)` starts the index at 1. -/
def generateInsertStatements (d : Dialect) (batch_size : Nat) (data : List Record)
    (table_name : String) (columns : List String) (null_values : List String) :
    Option (List String) :=
  generateRowsAux d batch_size table_name columns null_values 1 data

/-- The schema choice `columns = list(data[0].keys())` (`sql_generator.py` line 201). -/
def generationColumns (data : List Record) : List String :=
  recordKeys (data.headD [])

/-- The line list assembled by `SQLGenerator.generate_inserts` for non-empty
data (`sql_generator.py` lines 203–211): header, then the CREATE TABLE block
when the table name starts with `#` but not `##`, then the INSERT statements. -/
def generateInsertLines (d : Dialect) (batch_size : Nat) (data : List Record)
    (table_name : String) (null_values : List String) : Option (List String) := do
  let columns := generationColumns data
  let inserts ← generateInsertStatements d batch_size data table_name columns null_values
  pure (generateHeader table_name data.length ++
        (if pyStartsWith table_name "#" && !(pyStartsWith table_name "##")
         then [createTableStatement d table_name columns] else []) ++
        inserts)

/-- Embedding of `SQLGenerator.generate_inserts` (`sql_generator.py` lines 181–213).
`none` for the `null_values` argument models the Python default `None`,
replaced by `defaultNullValues` (lines 197–198); the result `none` models a
raised `KeyError`. -/
def generateInserts (d : Dialect) (batch_size : Nat) (data : List Record)
    (table_name : String) (null_values : Option (List String)) : Option String :=
  if data.isEmpty then some "-- No data to insert"
  else do
    let nvs := null_values.getD defaultNullValues
    let lines ← generateInsertLines d batch_size data table_name nvs
    pure (String.intercalate "\n" lines)

/-- Embedding of `FileManager.validate_table_name` (`file_manager.py` lines 136–150). -/
def validateTableName (table_name : String) : Bool :=
  !(pyStartsWith table_name "##")

/-- The error message printed by `SQLGeneratorApp._process_csv_file`
(`app.py` lines 155–157) when the table name is rejected. -/
def globalTempErrorLines : List String :=
  ["❌ Error: Global temporary tables (##) are not supported.",
   "   Use local temporary tables (#) instead.",
   "   Example: #temp_users (not ##global_temp_users)"]

/-- Outcome of the application pipeline around `generate_inserts`. -/
inductive GenOutcome where
  | refused : List String → GenOutcome
  | sql : String → GenOutcome
  | keyErr : GenOutcome
  deriving DecidableEq, Repr

/-- The generation path of `SQLGeneratorApp._process_csv_file`
(`app.py` lines 152–196): the table name is validated (lines 153–158, exiting
with the global-temporary error before any SQL text is produced) before
`generate_inserts` runs (line 192). -/
def appProcess (d : Dialect) (batch_size : Nat) (data : List Record)
    (table_name : String) (null_values : Option (List String)) : GenOutcome :=
  if !(validateTableName table_name) then .refused globalTempErrorLines
  else
    match generateInserts d batch_size data table_name null_values with
    | some s => .sql s
    | none => .keyErr

/-- Embedding of `CSVReader.validate_data` (`csv_reader.py` lines 141–160): `False` on
empty data, and `False` as soon as some row's key set differs from the first
row's key set (Python compares `set(row.keys())`, modelled as mutual list
inclusion). -/
def csvValidateData (data : List Record) : Bool :=
  match data with
  | [] => false
  | first :: rest =>
    rest.all (fun row =>
      (recordKeys row).all ((recordKeys first).contains ·) &&
      (recordKeys first).all ((recordKeys row).contains ·))

/-- One padding pass of `DataReader.validate_data` (`data_reader.py` lines
334–337): `for key in all_keys: if key not in row: row[key] = None` appends
every missing key with `None`, in the iteration order of the `all_keys` set,
which is passed in as the list `order`. -/
def padRow (order : List String) (row : Record) : Record :=
  row ++ (order.filter (fun k => !((recordKeys row).contains k))).map (fun k => (k, SVal.vNull))

/-- Embedding of `DataReader.validate_data` (`data_reader.py` lines 313–339): `False` on
empty data; otherwise, when there is more than one row, every row is padded
with the keys of `all_keys` it misses, and `True` is returned. Python
iterates the `all_keys` *set* in an unspecified order; the parameter `order`
stands for that enumeration (theorems assume it enumerates exactly the union
of the rows' keys). The returned list models the in-place mutation. -/
def dataValidateData (order : List String) (data : List Record) : Bool × List Record :=
  if data.isEmpty then (false, data)
  else if 1 < data.length then (true, data.map (padRow order))
  else (true, data)

/-- JSON values as loaded by `json.load` for `DataReader._read_json`. -/
inductive Json where
  | jNull : Json
  | jStr : String → Json
  | jInt : Int → Json
  | jBool : Bool → Json
  | jArr : List Json → Json
  | jObj : List (String × Json) → Json

/-- The scalar a simple JSON leaf contributes (`flattened[new_key] = value`);
`json.load` maps JSON `null` to Python `None`. -/
def jsonScalar : Json → SVal
  | .jNull => .vNull
  | .jStr s => .vStr s
  | .jInt n => .vInt n
  | .jBool b => .vBool b
  | .jArr _ => .vNull
  | .jObj _ => .vNull

/-- Embedding of `DataReader._flatten_json_object` (`data_reader.py` lines 240–267) on the
item list of a JSON object: a nested object is flattened recursively under
`<parent>_<child>` keys, a list becomes `None`, a simple value is kept
unchanged. (`flattened.update(nested)` / `flattened[new_key] = value` append
in iteration order; the source objects of interest have no colliding keys.) -/
def flattenJsonFields (parent_key : String) : List (String × Json) → List (String × SVal)
  | [] => []
  | (key, value) :: rest =>
    let new_key := if parent_key == "" then key else parent_key ++ "_" ++ key
    (match value with
     | .jObj fields => flattenJsonFields new_key fields
     | v => [(new_key, jsonScalar v)]) ++ flattenJsonFields parent_key rest

/-- Modelled from the spec's words (§3, "Schema"): "the ordered sequence of
distinct column names, derived as the union of all Records' keys, first-seen
order, deduplicated". Stated only to be compared against the code's
`generationColumns`. -/
def specSchema (data : List Record) : List String :=
  data.foldl
    (fun acc row =>
      (recordKeys row).foldl (fun acc k => if acc.contains k then acc else acc ++ [k]) acc)
    []

/-- The INSERT statement the row loop (`sql_generator.py` lines 251–256)
produces for `row` when every column lookup succeeds (under that hypothesis
the `getD` default is never used; see `insertStatementFor_eq`). -/
def renderedInsert (d : Dialect) (table_name : String) (columns null_values : List String)
    (row : Record) : String :=
  "INSERT INTO " ++ table_name ++ " (" ++ String.intercalate ", " columns ++
  ") VALUES (" ++ String.intercalate ", "
    (columns.map (fun c => formatValue d ((lookupVal row c).getD .vNull) null_values)) ++ ");"

/-- The scalar leaves of a JSON object's field list: the simple (non-object,
non-list) values, as the `SVal`s they contribute, in traversal order. -/
def scalarLeavesFields : List (String × Json) → List SVal
  | [] => []
  | (_, .jObj fields) :: rest => scalarLeavesFields fields ++ scalarLeavesFields rest
  | (_, .jArr _) :: rest => scalarLeavesFields rest
  | (_, v) :: rest => jsonScalar v :: scalarLeavesFields rest

/-! ## Helper lemmas -/

lemma pyReplace1Aux_eq_flatMap (pat : Char) (rep : List Char) (l : List Char) :
    pyReplace1Aux pat rep l = l.flatMap (fun c => if c = pat then rep else [c]) := by
  induction l with
  | nil => rfl
  | cons c cs ih => simp only [pyReplace1Aux, ih, List.flatMap_cons]

lemma mapM_lookup_eq (f : SVal → String) (row : Record) (cols : List String)
    (h : ∀ c ∈ cols, (lookupVal row c).isSome) :
    cols.mapM (fun c => (lookupVal row c).map f) =
      some (cols.map (fun c => f ((lookupVal row c).getD .vNull))) := by
  induction cols with
  | nil => rfl
  | cons c cs ih =>
    obtain ⟨v, hv⟩ := Option.isSome_iff_exists.mp (h c (by simp))
    rw [List.mapM_cons, hv, ih (fun x hx => h x (by simp [hx]))]
    simp [hv]

lemma insertStatementFor_eq (d : Dialect) (tn : String) (cols nvs : List String)
    (row : Record) (h : ∀ c ∈ cols, (lookupVal row c).isSome) :
    insertStatementFor d tn cols nvs row = some (renderedInsert d tn cols nvs row) := by
  unfold insertStatementFor
  rw [mapM_lookup_eq (fun v => formatValue d v nvs) row cols h]
  rfl

/-- Characterization of the row loop: when every column lookup succeeds on
every row, the emitted line list is, for each row in order, its INSERT
statement followed by the progress comment exactly when its 1-based index is
divisible by the batch size. -/
lemma generateRowsAux_eq (d : Dialect) (B : Nat) (tn : String) (cols nvs : List String)
    (rows : List Record) (i : Nat)
    (h : ∀ row ∈ rows, ∀ c ∈ cols, (lookupVal row c).isSome) :
    generateRowsAux d B tn cols nvs i rows =
      some (((rows.enumFrom i).map (fun p =>
        renderedInsert d tn cols nvs p.2 ::
          (if p.1 % B == 0 then ["-- Processed " ++ toString p.1 ++ " rows"] else []))).flatten) := by
  induction rows generalizing i with
  | nil => rfl
  | cons r rs ih =>
    have h1 : ∀ c ∈ cols, (lookupVal r c).isSome := h r (by simp)
    have h2 : ∀ row ∈ rs, ∀ c ∈ cols, (lookupVal row c).isSome :=
      fun row hrow => h row (by simp [hrow])
    unfold generateRowsAux
    rw [insertStatementFor_eq d tn cols nvs r h1]
    rw [ih (i + 1) h2]
    simp only [List.enumFrom_cons, List.map_cons, List.flatten_cons, Option.bind_some,
      Option.bind_eq_bind]
    by_cases hi : i % B == 0 <;> simp [hi]

/-! ## Claim theorems -/

/-- C1: with the default sentinel list, the values `"None"` and `"none"` are
NOT rendered as NULL: the membership test upper-cases only the trimmed value
(`str(value).strip().upper() in null_values`), never the sentinels, so
`"NONE"` misses the literal entries `"None"`/`"none"` and the value comes
back as a quoted literal; `""`, `"NULL"` and `"null"` do render as NULL. -/
theorem null_sentinel_case_mismatch :
    formatValueSQLServer (.vStr "None") defaultNullValues = "\x27None\x27" ∧
    formatValueSQLServer (.vStr "none") defaultNullValues = "\x27none\x27" ∧
    formatValueMySQL (.vStr "none") defaultNullValues = "\x27none\x27" ∧
    formatValuePostgreSQL (.vStr "None") defaultNullValues = "\x27None\x27" ∧
    formatValueSQLServer (.vStr "null") defaultNullValues = "NULL" ∧
    formatValueSQLServer (.vStr "NULL") defaultNullValues = "NULL" ∧
    formatValueSQLServer (.vStr "") defaultNullValues = "NULL" := by
  decide

/-- C3 counterexample: `CSVReader.validate_data` returns `False` on a
non-empty Record Set whose two rows have different key sets, so "validation
fails if and only if the Record Set is empty" does not hold of it. -/
theorem csv_validate_nonempty_false_counterexample :
    csvValidateData [[("a", SVal.vStr "1")], [("b", SVal.vStr "2")]] = false ∧
    ([[("a", SVal.vStr "1")], [("b", SVal.vStr "2")]] : List Record) ≠ [] := by
  decide

/-- C4: for every table name beginning with `##`, the application pipeline
refuses generation with the local-vs-global temporary-table error message,
whatever the data, dialect, batch size and sentinels; no SQL text (header,
CREATE TABLE or INSERT) is produced, as the outcome is `refused`, not `sql`. -/
theorem global_temp_table_refused (d : Dialect) (B : Nat) (data : List Record)
    (tn : String) (nvs : Option (List String)) (h : pyStartsWith tn "##" = true) :
    appProcess d B data tn nvs = .refused globalTempErrorLines := by
  unfold appProcess validateTableName
  rw [h]
  rfl

/-- Witness for C4 at the spec's example `##global`. -/
theorem global_temp_table_refused_witness :
    pyStartsWith "##global" "##" = true ∧
    appProcess .sqlserver 100 [[("a", SVal.vStr "1")]] "##global" none =
      .refused globalTempErrorLines :=
  ⟨by decide, global_temp_table_refused .sqlserver 100 [[("a", SVal.vStr "1")]] "##global" none
    (by decide)⟩

/-- C9: an empty Record Set yields exactly the sentinel line
`-- No data to insert`, with no header, CREATE TABLE or INSERT text. -/
theorem empty_data_sentinel (d : Dialect) (B : Nat) (tn : String)
    (nvs : Option (List String)) :
    generateInserts d B [] tn nvs = some "-- No data to insert" := rfl

set_option maxRecDepth 4000 in
/-- C2 counterexample: on a Record Set whose second Record has the extra key
`b`, the column list used by `generate_inserts` is the first Record's keys
`["a"]`, not the spec's first-occurrence union `["a", "b"]`; generation
proceeds and silently drops column `b`. -/
theorem generation_columns_not_union_counterexample :
    generationColumns [[("a", SVal.vStr "1")], [("a", SVal.vStr "2"), ("b", SVal.vStr "3")]] =
      ["a"] ∧
    specSchema [[("a", SVal.vStr "1")], [("a", SVal.vStr "2"), ("b", SVal.vStr "3")]] =
      ["a", "b"] ∧
    generationColumns [[("a", SVal.vStr "1")], [("a", SVal.vStr "2"), ("b", SVal.vStr "3")]] ≠
      specSchema [[("a", SVal.vStr "1")], [("a", SVal.vStr "2"), ("b", SVal.vStr "3")]] ∧
    generateInserts .sqlserver 100
      [[("a", SVal.vStr "1")], [("a", SVal.vStr "2"), ("b", SVal.vStr "3")]] "t" none =
      some ("-- Generated SQL INSERT statements for table: t\n-- Total rows: 2\n" ++
            "-- Note: Empty values are inserted as NULL (without quotes)\n\n" ++
            "INSERT INTO t (a) VALUES (\x271\x27);\nINSERT INTO t (a) VALUES (\x272\x27);") := by
  refine ⟨by decide, by decide, by decide, ?_⟩
  decide

/-- C8 counterexample: flattening `{"user": {"id": 1, "tags": ["a","b"]}}`
keeps `user_id` as the integer `1`, not the string `"1"`: normalization never
stringifies scalars (that happens later, in `format_value`). -/
theorem flatten_keeps_int_counterexample :
    flattenJsonFields ""
      [("user", .jObj [("id", .jInt 1), ("tags", .jArr [.jStr "a", .jStr "b"])])] =
      [("user_id", SVal.vInt 1), ("user_tags", SVal.vNull)] ∧
    flattenJsonFields ""
      [("user", .jObj [("id", .jInt 1), ("tags", .jArr [.jStr "a", .jStr "b"])])] ≠
      [("user_id", SVal.vStr "1"), ("user_tags", SVal.vNull)] := by
  constructor
  · simp [flattenJsonFields, jsonScalar]
  · simp [flattenJsonFields, jsonScalar]

/-- C10: `generate_inserts` never hits a failing key lookup when every Record
contains every key of the first Record (the state reconciliation guarantees),
and it does raise a `KeyError` (modelled `none`) on a Record Set whose second
Record lacks the first Record's key `a` — so prior reconciliation is a real
precondition. -/
theorem generate_inserts_total_iff_reconciled :
    (∀ (d : Dialect) (B : Nat) (r0 : Record) (rest : List Record) (tn : String)
       (nvs : Option (List String)),
       (∀ row ∈ r0 :: rest, ∀ c ∈ recordKeys r0, (lookupVal row c).isSome) →
       (generateInserts d B (r0 :: rest) tn nvs).isSome = true) ∧
    generateInserts .sqlserver 100 [[("a", SVal.vStr "1")], []] "t" none = none := by
  constructor
  · intro d B r0 rest tn nvs h
    have hrw := generateRowsAux_eq d B tn (generationColumns (r0 :: rest))
      (nvs.getD defaultNullValues) (r0 :: rest) 1 h
    simp [generateInserts, generateInsertLines, generateInsertStatements, hrw]
  · decide

lemma headCharOfAppend (s t : String) (c : Char) (h : s.data.head? = some c) :
    (s ++ t).data.head? = some c := by
  rw [String.data_append, List.head?_append, h]
  rfl

lemma renderedInsert_head (d : Dialect) (tn : String) (cols nvs : List String) (row : Record) :
    (renderedInsert d tn cols nvs row).data.head? = some 'I' := by
  unfold renderedInsert
  apply headCharOfAppend
  apply headCharOfAppend
  apply headCharOfAppend
  apply headCharOfAppend
  apply headCharOfAppend
  apply headCharOfAppend
  decide

lemma comment_head (i : Nat) :
    ("-- Processed " ++ toString i ++ " rows").data.head? = some '-' := by
  apply headCharOfAppend
  apply headCharOfAppend
  decide

/-- Filtering the row loop's output for lines whose first character is `I`
(the INSERT statements; the progress comments start with `-`) returns exactly
one INSERT per row, in row order. -/
lemma filter_insert_lines (d : Dialect) (B : Nat) (tn : String) (cols nvs : List String)
    (rows : List Record) (i : Nat) :
    (((rows.enumFrom i).map (fun p =>
        renderedInsert d tn cols nvs p.2 ::
          (if p.1 % B == 0 then ["-- Processed " ++ toString p.1 ++ " rows"] else []))).flatten).filter
      (fun l => l.data.head? == some 'I') = rows.map (renderedInsert d tn cols nvs) := by
  have hne : ((some '-' : Option Char) == some 'I') = false := by decide
  induction rows generalizing i with
  | nil => rfl
  | cons r rs ih =>
    simp only [List.enumFrom_cons, List.map_cons, List.flatten_cons, List.filter_append, ih]
    by_cases hi : i % B == 0 <;>
      simp [hi, List.filter_cons, renderedInsert_head, comment_head, hne]

/-- C5: for a string value the dialect does not render as NULL, the emitted
literal is, character for character, one opening quote, then the value with
every single quote doubled (SQLServer, PostgreSQL) or preceded by a backslash
(MySQL) and every other character unchanged, then one closing quote. -/
theorem quote_escaping (s : String) (nvs : List String)
    (hnull : isNullRendered (.vStr s) nvs = false) (hq : squote ∈ s.data) :
    (formatValueSQLServer (.vStr s) nvs).data =
      squote :: (s.data.flatMap (fun c => if c = squote then [squote, squote] else [c])) ++
        [squote] ∧
    (formatValuePostgreSQL (.vStr s) nvs).data =
      squote :: (s.data.flatMap (fun c => if c = squote then [squote, squote] else [c])) ++
        [squote] ∧
    (formatValueMySQL (.vStr s) nvs).data =
      squote :: (s.data.flatMap (fun c => if c = squote then [Char.ofNat 92, squote] else [c])) ++
        [squote] := by
  have h27 : ("\x27" : String).data = [squote] := by decide
  have h2727 : ("\x27\x27" : String).data = [squote, squote] := by decide
  have hbs : ("\\\x27" : String).data = [Char.ofNat 92, squote] := by decide
  refine ⟨?_, ?_, ?_⟩ <;>
    simp only [formatValueSQLServer, formatValuePostgreSQL, formatValueMySQL, hnull,
      Bool.false_eq_true, if_false, String.data_append, pyReplace1, pyStr,
      pyReplace1Aux_eq_flatMap, h27, h2727, hbs] <;>
    rfl

/-- Witness for C5 at the value `O'Brien` with the default sentinels. -/
theorem quote_escaping_witness :
    isNullRendered (.vStr "O\x27Brien") defaultNullValues = false ∧
    squote ∈ "O\x27Brien".data ∧
    (formatValueMySQL (.vStr "O\x27Brien") defaultNullValues).data =
      squote ::
        ("O\x27Brien".data.flatMap (fun c => if c = squote then [Char.ofNat 92, squote] else [c]))
        ++ [squote] :=
  ⟨by decide, by decide,
    (quote_escaping "O\x27Brien" defaultNullValues (by decide) (by decide)).2.2⟩

/-- C6: with a positive batch interval and every lookup succeeding, the row
loop emits, for each of the n Records in Record order, its INSERT statement,
followed by the comment `-- Processed <i> rows` exactly when the 1-based
index i is divisible by the interval; filtering the output for lines starting
with `I` (the INSERTs) gives exactly one line per Record, in order, so the
comments add to, and never replace or alter, the row lines. -/
theorem insert_per_record_with_batch_comments (d : Dialect) (B : Nat) (tn : String)
    (cols nvs : List String) (rows : List Record) (hB : 0 < B)
    (h : ∀ row ∈ rows, ∀ c ∈ cols, (lookupVal row c).isSome) :
    generateInsertStatements d B rows tn cols nvs =
      some (((rows.enumFrom 1).map (fun p =>
        renderedInsert d tn cols nvs p.2 ::
          (if p.1 % B == 0 then ["-- Processed " ++ toString p.1 ++ " rows"] else []))).flatten) ∧
    ∀ lines, generateInsertStatements d B rows tn cols nvs = some lines →
      lines.filter (fun l => l.data.head? == some 'I') =
        rows.map (renderedInsert d tn cols nvs) := by
  have h1 := generateRowsAux_eq d B tn cols nvs rows 1 h
  refine ⟨h1, ?_⟩
  intro lines hl
  rw [generateInsertStatements] at hl
  rw [h1] at hl
  cases hl
  exact filter_insert_lines d B tn cols nvs rows 1

/-- Witness for C6: three rows, interval 2; the comment follows the second
row only, and the INSERT-line filter returns the three row statements. -/
theorem insert_per_record_with_batch_comments_witness :
    generateInsertStatements .sqlserver 2
      [[("a", SVal.vStr "1")], [("a", SVal.vStr "2")], [("a", SVal.vStr "3")]] "t" ["a"]
      defaultNullValues =
      some ["INSERT INTO t (a) VALUES (\x271\x27);", "INSERT INTO t (a) VALUES (\x272\x27);",
            "-- Processed 2 rows", "INSERT INTO t (a) VALUES (\x273\x27);"] :=
  ((insert_per_record_with_batch_comments .sqlserver 2 "t" ["a"] defaultNullValues
    [[("a", SVal.vStr "1")], [("a", SVal.vStr "2")], [("a", SVal.vStr "3")]]
    (by decide) (by decide)).1).trans (by decide)

/-- C7: the line list of `generate_inserts` is the header, then the CREATE
TABLE block exactly when the table name starts with `#` but not `##`, then
the INSERT statements; for the scenario columns `["id", "name"]` under the
SQLServer dialect the block declares each column as `<col> NVARCHAR(MAX)
NULL`, and `#staging` (one `#`) triggers it while a `##` name does not. -/
theorem create_table_iff_single_hash (d : Dialect) (B : Nat) (r0 : Record)
    (rest : List Record) (tn : String) (nvs : List String)
    (h : ∀ row ∈ r0 :: rest, ∀ c ∈ recordKeys r0, (lookupVal row c).isSome) :
    (∃ ins,
      generateInsertStatements d B (r0 :: rest) tn (generationColumns (r0 :: rest)) nvs =
        some ins ∧
      generateInsertLines d B (r0 :: rest) tn nvs =
        some (generateHeader tn (r0 :: rest).length ++
          (if pyStartsWith tn "#" && !(pyStartsWith tn "##")
           then [createTableStatement d tn (recordKeys r0)] else []) ++ ins)) ∧
    createTableStatementSQLServer "#staging" ["id", "name"] =
      "-- CREATE TABLE statement for temporary table\nCREATE TABLE #staging (\n" ++
      "    id NVARCHAR(MAX) NULL\n    name NVARCHAR(MAX) NULL\n);\n\n-- INSERT statements:\n" ∧
    (pyStartsWith "#staging" "#" && !(pyStartsWith "#staging" "##")) = true ∧
    (pyStartsWith "##global" "#" && !(pyStartsWith "##global" "##")) = false := by
  refine ⟨?_, by decide, by decide, by decide⟩
  have hrw := generateRowsAux_eq d B tn (generationColumns (r0 :: rest)) nvs (r0 :: rest) 1 h
  refine ⟨_, hrw, ?_⟩
  have hrw2 : generateRowsAux d B tn (recordKeys r0) nvs 1 (r0 :: rest) =
      some (((List.enumFrom 1 (r0 :: rest)).map (fun p =>
        renderedInsert d tn (recordKeys r0) nvs p.2 ::
          (if p.1 % B == 0 then ["-- Processed " ++ toString p.1 ++ " rows"] else []))).flatten) :=
    hrw
  simp [generateInsertLines, generateInsertStatements, hrw2, generationColumns]

/-- Witness for C7 at the `#staging` scenario. -/
theorem create_table_iff_single_hash_witness :
    ∃ ins,
      generateInsertStatements .sqlserver 100 [[("id", SVal.vStr "1"), ("name", SVal.vStr "Bob")]]
        "#staging" (generationColumns [[("id", SVal.vStr "1"), ("name", SVal.vStr "Bob")]])
        defaultNullValues = some ins ∧
      generateInsertLines .sqlserver 100 [[("id", SVal.vStr "1"), ("name", SVal.vStr "Bob")]]
        "#staging" defaultNullValues =
        some (generateHeader "#staging" [[("id", SVal.vStr "1"), ("name", SVal.vStr "Bob")]].length ++
          (if pyStartsWith "#staging" "#" && !(pyStartsWith "#staging" "##")
           then [createTableStatement .sqlserver "#staging"
                   (recordKeys [("id", SVal.vStr "1"), ("name", SVal.vStr "Bob")])] else []) ++ ins) :=
  (create_table_iff_single_hash .sqlserver 100 [("id", SVal.vStr "1"), ("name", SVal.vStr "Bob")]
    [] "#staging" defaultNullValues (by decide)).1

lemma snd_mem_of_mem_enumFrom {α : Type} {p : Nat × α} :
    ∀ {l : List α} {n : Nat}, p ∈ List.enumFrom n l → p.2 ∈ l := by
  intro l
  induction l with
  | nil => intro n h; simp [List.enumFrom] at h
  | cons a as ih =>
    intro n h
    rw [List.enumFrom_cons] at h
    rcases List.mem_cons.mp h with h | h
    · subst h; exact List.mem_cons_self a as
    · exact List.mem_cons_of_mem a (ih h)

/-- C2 (amended): the column list used in generation is the first Record's
key list, and every emitted INSERT line carries that identical parenthesized
column list; every output line is either a progress comment or such an
INSERT for one of the Records. -/
theorem insert_column_list_uniform (d : Dialect) (B : Nat) (r0 : Record)
    (rest : List Record) (tn : String) (nvs : List String)
    (h : ∀ row ∈ r0 :: rest, ∀ c ∈ generationColumns (r0 :: rest), (lookupVal row c).isSome) :
    generationColumns (r0 :: rest) = recordKeys r0 ∧
    ∃ lines,
      generateInsertStatements d B (r0 :: rest) tn (generationColumns (r0 :: rest)) nvs =
        some lines ∧
      ∀ line ∈ lines,
        (∃ i : Nat, line = "-- Processed " ++ toString i ++ " rows") ∨
        ∃ row ∈ r0 :: rest,
          line = "INSERT INTO " ++ tn ++ " (" ++ String.intercalate ", " (recordKeys r0) ++
                 ") VALUES (" ++ String.intercalate ", "
                   ((recordKeys r0).map
                     (fun c => formatValue d ((lookupVal row c).getD .vNull) nvs)) ++ ");" := by
  refine ⟨rfl, ?_⟩
  have hrw := generateRowsAux_eq d B tn (generationColumns (r0 :: rest)) nvs (r0 :: rest) 1 h
  refine ⟨_, hrw, ?_⟩
  intro line hline
  rw [List.mem_flatten] at hline
  obtain ⟨l, hl, hline⟩ := hline
  rw [List.mem_map] at hl
  obtain ⟨p, hp, rfl⟩ := hl
  rcases List.mem_cons.mp hline with rfl | hcomment
  · exact Or.inr ⟨p.2, snd_mem_of_mem_enumFrom hp, rfl⟩
  · left
    refine ⟨p.1, ?_⟩
    by_cases hc : p.1 % B == 0
    · rw [if_pos hc] at hcomment
      simpa using hcomment
    · rw [if_neg hc] at hcomment
      cases hcomment

/-- Witness for C2 (amended) on two Records listing keys in different
orders. -/
theorem insert_column_list_uniform_witness :
    generationColumns
        [[("a", SVal.vStr "1"), ("b", SVal.vStr "x")], [("b", SVal.vStr "2"), ("a", SVal.vStr "3")]]
      = recordKeys [("a", SVal.vStr "1"), ("b", SVal.vStr "x")] :=
  (insert_column_list_uniform .sqlserver 100 [("a", SVal.vStr "1"), ("b", SVal.vStr "x")]
    [[("b", SVal.vStr "2"), ("a", SVal.vStr "3")]] "t" defaultNullValues (by decide)).1

lemma find?_key_isSome (r : Record) (k : String) (hk : k ∈ recordKeys r) :
    (List.find? (fun kv => kv.1 == k) r).isSome := by
  rw [List.find?_isSome]
  rcases List.mem_map.mp hk with ⟨kv, hkv, hfst⟩
  exact ⟨kv, hkv, by simp [hfst]⟩

lemma find?_key_eq_none (r : Record) (k : String) (hk : k ∉ recordKeys r) :
    List.find? (fun kv => kv.1 == k) r = none := by
  rw [List.find?_eq_none]
  intro kv hkv hbeq
  exact hk (List.mem_map.mpr ⟨kv, hkv, by simpa using hbeq⟩)

lemma lookup_pads (ks : List String) (k : String) (hk : k ∈ ks) :
    (List.find? (fun kv => kv.1 == k) (ks.map (fun k2 => (k2, SVal.vNull)))).map (·.2) =
      some SVal.vNull := by
  induction ks with
  | nil => cases hk
  | cons a as ih =>
    by_cases hak : a = k
    · subst hak
      simp [List.find?_cons]
    · rcases List.mem_cons.mp hk with h1 | h1
      · exact absurd h1.symm hak
      · simpa [List.find?_cons, hak] using ih h1

lemma lookupVal_padRow_mem (order : List String) (row : Record) (k : String)
    (hk : k ∈ recordKeys row) :
    lookupVal (padRow order row) k = lookupVal row k := by
  unfold padRow lookupVal
  rw [List.find?_append]
  obtain ⟨kv, hfind⟩ := Option.isSome_iff_exists.mp (find?_key_isSome row k hk)
  rw [hfind]
  rfl

lemma lookupVal_padRow_missing (order : List String) (row : Record) (k : String)
    (hk : k ∉ recordKeys row) (hko : k ∈ order) :
    lookupVal (padRow order row) k = some .vNull := by
  unfold padRow lookupVal
  rw [List.find?_append, find?_key_eq_none row k hk]
  exact lookup_pads _ _ (List.mem_filter.mpr ⟨hko, by simp [hk]⟩)

lemma recordKeys_padRow (order : List String) (row : Record) (k : String) :
    k ∈ recordKeys (padRow order row) ↔ k ∈ recordKeys row ∨ k ∈ order := by
  have hmap : recordKeys (padRow order row) =
      recordKeys row ++ order.filter (fun k2 => !((recordKeys row).contains k2)) := by
    simp only [padRow, recordKeys, List.map_append, List.map_map]
    exact congrArg _ (List.map_id _)
  rw [hmap, List.mem_append]
  constructor
  · rintro (h | h)
    · exact Or.inl h
    · exact Or.inr (List.mem_filter.mp h).1
  · rintro (h | h)
    · exact Or.inl h
    · by_cases hkr : k ∈ recordKeys row
      · exact Or.inl hkr
      · exact Or.inr (List.mem_filter.mpr ⟨h, by simp [hkr]⟩)

/-- C3 (amended): `DataReader.validate_data` returns `False` exactly on the
empty Record Set; a non-empty set is reconciled without dropping rows, each
row keeping its own values, gaining the NULL-marker on every union key it
misses, and ending with exactly the union of all rows' keys (`order`
enumerates the key union, standing for Python's set-iteration order). The
uniformity-checking `CSVReader.validate_data` does not behave this way (see
its counterexample). -/
theorem data_validate_reconciles (order : List String) (data : List Record)
    (hord : ∀ k, k ∈ order ↔ ∃ row ∈ data, k ∈ recordKeys row) :
    (((dataValidateData order data).1 = false) ↔ data = []) ∧
    (dataValidateData order data).2.length = data.length ∧
    (1 < data.length → (dataValidateData order data).2 = data.map (padRow order)) ∧
    ∀ row ∈ data,
      (∀ k ∈ recordKeys row, lookupVal (padRow order row) k = lookupVal row k) ∧
      (∀ k, k ∉ recordKeys row → k ∈ order → lookupVal (padRow order row) k = some .vNull) ∧
      (∀ k, k ∈ recordKeys (padRow order row) ↔ ∃ r ∈ data, k ∈ recordKeys r) := by
  refine ⟨?_, ?_, ?_, ?_⟩
  · cases data with
    | nil => simp [dataValidateData]
    | cons r rs =>
      simp only [dataValidateData, List.isEmpty_cons, Bool.false_eq_true, if_false]
      split <;> simp
  · by_cases h1 : data.isEmpty <;> by_cases h2 : 1 < data.length <;>
      simp [dataValidateData, h1, h2]
  · intro hlen
    cases data with
    | nil => simp at hlen
    | cons r rs =>
      cases rs with
      | nil => simp at hlen
      | cons r2 rs2 => simp [dataValidateData]
  · intro row hrow
    refine ⟨fun k hk => lookupVal_padRow_mem order row k hk,
            fun k hk hko => lookupVal_padRow_missing order row k hk hko,
            fun k => ?_⟩
    rw [recordKeys_padRow]
    constructor
    · rintro (h | h)
      · exact ⟨row, hrow, h⟩
      · exact (hord k).mp h
    · intro h
      exact Or.inr ((hord k).mpr h)

/-- Witness for C3 (amended) on a heterogeneous two-row Record Set with key
union `["a", "b"]`. -/
theorem data_validate_reconciles_witness :
    (dataValidateData ["a", "b"] [[("a", SVal.vStr "1")], [("b", SVal.vStr "2")]]).2.length =
      ([[("a", SVal.vStr "1")], [("b", SVal.vStr "2")]] : List Record).length :=
  (data_validate_reconciles ["a", "b"] [[("a", SVal.vStr "1")], [("b", SVal.vStr "2")]]
    (by intro k; simp [recordKeys])).2.1

/-- C8 (amended): after flattening, every value of the resulting Record is
either the NULL-marker or a scalar taken unchanged from a simple field of the
source object (never a nested mapping or sequence); in particular the
nested-object scenario yields `user_id` bound to the integer `1` — unchanged,
not stringified — and `user_tags` bound to the NULL-marker. -/
theorem flatten_values_null_or_source_scalar :
    (∀ (pk : String) (fields : List (String × Json)) (kv : String × SVal),
       kv ∈ flattenJsonFields pk fields →
       kv.2 = SVal.vNull ∨ kv.2 ∈ scalarLeavesFields fields) ∧
    flattenJsonFields ""
      [("user", .jObj [("id", .jInt 1), ("tags", .jArr [.jStr "a", .jStr "b"])])] =
      [("user_id", SVal.vInt 1), ("user_tags", SVal.vNull)] := by
  constructor
  · intro pk fields
    induction pk, fields using flattenJsonFields.induct with
    | case1 pk =>
      intro kv hkv
      simp [flattenJsonFields] at hkv
    | case2 pk key value rest nk ihm ihr =>
      intro kv hkv
      cases value with
      | jObj fields =>
        simp only [flattenJsonFields] at hkv
        rcases List.mem_append.mp hkv with h | h
        · rcases ihm kv h with h2 | h2
          · exact Or.inl h2
          · refine Or.inr ?_
            simp only [scalarLeavesFields]
            exact List.mem_append_left _ h2
        · rcases ihr kv h with h2 | h2
          · exact Or.inl h2
          · refine Or.inr ?_
            simp only [scalarLeavesFields]
            exact List.mem_append_right _ h2
      | jArr l =>
        simp only [flattenJsonFields] at hkv
        rcases List.mem_append.mp hkv with h | h
        · rcases List.mem_singleton.mp h with rfl
          exact Or.inl rfl
        · rcases ihr kv h with h2 | h2
          · exact Or.inl h2
          · refine Or.inr ?_
            simp only [scalarLeavesFields]
            exact h2
      | jStr s =>
        simp only [flattenJsonFields] at hkv
        rcases List.mem_append.mp hkv with h | h
        · rcases List.mem_singleton.mp h with rfl
          refine Or.inr ?_
          simp only [scalarLeavesFields]
          exact List.mem_cons_self _ _
        · rcases ihr kv h with h2 | h2
          · exact Or.inl h2
          · refine Or.inr ?_
            simp only [scalarLeavesFields]
            exact List.mem_cons_of_mem _ h2
      | jInt n =>
        simp only [flattenJsonFields] at hkv
        rcases List.mem_append.mp hkv with h | h
        · rcases List.mem_singleton.mp h with rfl
          refine Or.inr ?_
          simp only [scalarLeavesFields]
          exact List.mem_cons_self _ _
        · rcases ihr kv h with h2 | h2
          · exact Or.inl h2
          · refine Or.inr ?_
            simp only [scalarLeavesFields]
            exact List.mem_cons_of_mem _ h2
      | jBool b =>
        simp only [flattenJsonFields] at hkv
        rcases List.mem_append.mp hkv with h | h
        · rcases List.mem_singleton.mp h with rfl
          refine Or.inr ?_
          simp only [scalarLeavesFields]
          exact List.mem_cons_self _ _
        · rcases ihr kv h with h2 | h2
          · exact Or.inl h2
          · refine Or.inr ?_
            simp only [scalarLeavesFields]
            exact List.mem_cons_of_mem _ h2
      | jNull =>
        simp only [flattenJsonFields] at hkv
        rcases List.mem_append.mp hkv with h | h
        · rcases List.mem_singleton.mp h with rfl
          exact Or.inl rfl
        · rcases ihr kv h with h2 | h2
          · exact Or.inl h2
          · refine Or.inr ?_
            simp only [scalarLeavesFields]
            exact List.mem_cons_of_mem _ h2
  · simp [flattenJsonFields, jsonScalar]

/-- Witness for C8 (amended) at the scenario's `user_id` binding. -/
theorem flatten_values_null_or_source_scalar_witness :
    (("user_id", SVal.vInt 1) : String × SVal).2 = SVal.vNull ∨
    (("user_id", SVal.vInt 1) : String × SVal).2 ∈
      scalarLeavesFields
        [("user", .jObj [("id", .jInt 1), ("tags", .jArr [.jStr "a", .jStr "b"])])] :=
  flatten_values_null_or_source_scalar.1 ""
    [("user", .jObj [("id", .jInt 1), ("tags", .jArr [.jStr "a", .jStr "b"])])]
    ("user_id", SVal.vInt 1) (by simp [flattenJsonFields, jsonScalar])

/-- Witness for C10's reconciled branch: two reconciled rows generate
successfully. -/
theorem generate_inserts_total_iff_reconciled_witness :
    (generateInserts .sqlserver 100
      [[("a", SVal.vStr "1"), ("b", SVal.vStr "")], [("b", SVal.vStr "2"), ("a", SVal.vStr "x")]]
      "t" none).isSome = true :=
  generate_inserts_total_iff_reconciled.1 .sqlserver 100
    [("a", SVal.vStr "1"), ("b", SVal.vStr "")] [[("b", SVal.vStr "2"), ("a", SVal.vStr "x")]]
    "t" none (by decide)

end PyGenSQL
